import Mathlib

/-!
Verification development for `openhands/core/message.py`: the typed content
model, the four-way message serializer, the function-call text codec, the
tool-description renderer and the native-to-non-native conversation rewriter.
Python values produced by `json.loads` are modelled by the inductive `Json`;
Python exceptions are modelled by the sum type `PyError`, and every fallible
operation returns `Except PyError _`.
-/

/-- Model of a Python value as produced by `json.loads`: JSON null, booleans,
integers, non-integral numbers (kept as their source text), strings, lists
and dicts (ordered key/value lists with Python dict insert semantics). -/
inductive Json where
  | null : Json
  | bool (b : Bool) : Json
  | int (n : Int) : Json
  | float (raw : String) : Json
  | str (s : String) : Json
  | arr (xs : List Json) : Json
  | obj (kvs : List (String × Json)) : Json

/-- JSON whitespace characters. -/
def isWs (c : Char) : Bool :=
  c = ' ' || c = '\t' || c = '\n' || c = '\r'

/-- Drop leading JSON whitespace. -/
def skipWs : List Char → List Char
  | c :: cs => if isWs c then skipWs cs else c :: cs
  | [] => []

/-- Hexadecimal digit value. -/
def hexVal (c : Char) : Option Nat :=
  if c.isDigit then some (c.toNat - 48)
  else if 'a' ≤ c && c ≤ 'f' then some (c.toNat - 87)
  else if 'A' ≤ c && c ≤ 'F' then some (c.toNat - 55)
  else none

/-- Single-character JSON string escapes. -/
def escChar (e : Char) : Option Char :=
  if e = '\"' then some '\"'
  else if e = '\\' then some '\\'
  else if e = '/' then some '/'
  else if e = 'b' then some (Char.ofNat 8)
  else if e = 'f' then some (Char.ofNat 12)
  else if e = 'n' then some '\n'
  else if e = 'r' then some '\r'
  else if e = 't' then some '\t'
  else none

/-- Body of a JSON string (after the opening quote), fuelled. -/
def parseStrBody : Nat → List Char → Option (List Char × List Char)
  | 0, _ => none
  | _, [] => none
  | fuel + 1, c :: cs =>
    if c = '\"' then some ([], cs)
    else if c = '\\' then
      match cs with
      | [] => none
      | e :: cs2 =>
        if e = 'u' then
          match cs2 with
          | a :: b :: c3 :: d :: cs3 =>
            match hexVal a, hexVal b, hexVal c3, hexVal d with
            | some ha, some hb, some hc, some hd =>
              (parseStrBody fuel cs3).map
                (fun p => (Char.ofNat (((ha * 16 + hb) * 16 + hc) * 16 + hd) :: p.1, p.2))
            | _, _, _, _ => none
          | _ => none
        else
          match escChar e with
          | some ec => (parseStrBody fuel cs2).map (fun p => (ec :: p.1, p.2))
          | none => none
    else if c.toNat < 32 then none
    else (parseStrBody fuel cs).map (fun p => (c :: p.1, p.2))

/-- Take a maximal run of decimal digits. -/
def takeDigits : List Char → List Char × List Char
  | c :: cs =>
    if c.isDigit then
      let p := takeDigits cs
      (c :: p.1, p.2)
    else ([], c :: cs)
  | [] => ([], [])

/-- Decimal digits to a natural number. -/
def digitsToNat (ds : List Char) : Nat :=
  ds.foldl (fun a c => a * 10 + (c.toNat - 48)) 0

/-- Optional exponent part of a JSON number; returns the matched text
(empty when no exponent is present). -/
def parseExpPart (cs : List Char) : Option (String × List Char) :=
  match cs with
  | c :: r =>
    if c = 'e' || c = 'E' then
      let q : String × List Char :=
        match r with
        | s :: r2 => if s = '+' || s = '-' then (String.mk [c, s], r2) else (String.mk [c], r)
        | [] => (String.mk [c], r)
      match takeDigits q.2 with
      | ([], _) => none
      | (ds, rest) => some (q.1 ++ String.mk ds, rest)
    else some ("", cs)
  | [] => some ("", cs)

/-- A JSON number; integral literals become `Json.int`, any literal with a
fraction or exponent becomes `Json.float` holding the source text. -/
def parseNumber (cs : List Char) : Option (Json × List Char) :=
  let p : Bool × List Char :=
    match cs with
    | '-' :: r => (true, r)
    | _ => (false, cs)
  let neg := p.1
  match takeDigits p.2 with
  | ([], _) => none
  | (ds, rest1) =>
    if ds.length > 1 && ds.headD ' ' = '0' then none
    else
      let intStr := (if neg then "-" else "") ++ String.mk ds
      match rest1 with
      | '.' :: r2 =>
        match takeDigits r2 with
        | ([], _) => none
        | (fs, rest2) =>
          match parseExpPart rest2 with
          | none => none
          | some (es, rest3) => some (Json.float (intStr ++ "." ++ String.mk fs ++ es), rest3)
      | _ =>
        match parseExpPart rest1 with
        | none => none
        | some (es, rest3) =>
          if es = "" then
            some (Json.int (if neg then -(Int.ofNat (digitsToNat ds)) else Int.ofNat (digitsToNat ds)), rest3)
          else some (Json.float (intStr ++ es), rest3)

/-- Python dict insertion: replacing an existing key keeps its position and
takes the new value, a fresh key is appended. -/
def dictInsert (kvs : List (String × Json)) (k : String) (v : Json) : List (String × Json) :=
  match kvs with
  | [] => [(k, v)]
  | (k0, v0) :: rest => if k0 = k then (k0, v) :: rest else (k0, v0) :: dictInsert rest k v

mutual

/-- Fuelled JSON value parser. -/
def parseVal : Nat → List Char → Option (Json × List Char)
  | 0, _ => none
  | fuel + 1, cs =>
    match skipWs cs with
    | [] => none
    | c :: rest =>
      if c = '\"' then
        match parseStrBody (rest.length + 1) rest with
        | some (body, r) => some (Json.str (String.mk body), r)
        | none => none
      else if c = '{' then parseObjBody fuel rest
      else if c = '[' then parseArrBody fuel rest
      else if c = 't' then
        match rest with
        | 'r' :: 'u' :: 'e' :: r => some (Json.bool true, r)
        | _ => none
      else if c = 'f' then
        match rest with
        | 'a' :: 'l' :: 's' :: 'e' :: r => some (Json.bool false, r)
        | _ => none
      else if c = 'n' then
        match rest with
        | 'u' :: 'l' :: 'l' :: r => some (Json.null, r)
        | _ => none
      else parseNumber (c :: rest)

/-- JSON object parser (after the opening brace). -/
def parseObjBody : Nat → List Char → Option (Json × List Char)
  | 0, _ => none
  | fuel + 1, cs =>
    match skipWs cs with
    | '}' :: rest => some (Json.obj [], rest)
    | cs2 => parseMembers fuel cs2 []

/-- JSON object member list parser. -/
def parseMembers : Nat → List Char → List (String × Json) → Option (Json × List Char)
  | 0, _, _ => none
  | fuel + 1, cs, acc =>
    match skipWs cs with
    | '\"' :: rest =>
      match parseStrBody (rest.length + 1) rest with
      | some (kbody, r1) =>
        match skipWs r1 with
        | ':' :: r2 =>
          match parseVal fuel r2 with
          | some (v, r3) =>
            let acc2 := dictInsert acc (String.mk kbody) v
            match skipWs r3 with
            | ',' :: r4 => parseMembers fuel r4 acc2
            | '}' :: r4 => some (Json.obj acc2, r4)
            | _ => none
          | none => none
        | _ => none
      | none => none
    | _ => none

/-- JSON array parser (after the opening bracket). -/
def parseArrBody : Nat → List Char → Option (Json × List Char)
  | 0, _ => none
  | fuel + 1, cs =>
    match skipWs cs with
    | ']' :: rest => some (Json.arr [], rest)
    | cs2 => parseElems fuel cs2 []

/-- JSON array element list parser. -/
def parseElems : Nat → List Char → List Json → Option (Json × List Char)
  | 0, _, _ => none
  | fuel + 1, cs, acc =>
    match parseVal fuel cs with
    | some (v, r1) =>
      match skipWs r1 with
      | ',' :: r2 => parseElems fuel r2 (acc ++ [v])
      | ']' :: r2 => some (Json.arr (acc ++ [v]), r2)
      | _ => none
    | none => none

end

/-- Model of Python `json.loads`: parse one JSON value, then require only
whitespace to remain; any failure is `none` (a `json.JSONDecodeError`). -/
def json_loads (s : String) : Option Json :=
  match parseVal (s.length * 2 + 8) s.toList with
  | some (v, rest) => if (skipWs rest).isEmpty then some v else none
  | none => none

mutual

/-- Model of Python `repr` on a `json.loads` value; used for values nested in
lists and dicts.  String quoting uses a single quote and non-integral numbers
keep their source text, approximating CPython's exact rendering. -/
def pyRepr : Json → String
  | Json.null => "None"
  | Json.bool true => "True"
  | Json.bool false => "False"
  | Json.int n => toString n
  | Json.float raw => raw
  | Json.str s => "\x27" ++ s ++ "\x27"
  | Json.arr xs => "[" ++ pyReprElems xs ++ "]"
  | Json.obj kvs => "\x7b" ++ pyReprMembers kvs ++ "\x7d"

/-- Comma-joined `repr` of list elements. -/
def pyReprElems : List Json → String
  | [] => ""
  | [x] => pyRepr x
  | x :: y :: xs => pyRepr x ++ ", " ++ pyReprElems (y :: xs)

/-- Comma-joined `repr` of dict members. -/
def pyReprMembers : List (String × Json) → String
  | [] => ""
  | [(k, v)] => "\x27" ++ k ++ "\x27: " ++ pyRepr v
  | (k, v) :: m :: kvs => "\x27" ++ k ++ "\x27: " ++ pyRepr v ++ ", " ++ pyReprMembers (m :: kvs)

end

/-- Model of Python `str()` (an f-string interpolation) on a `json.loads`
value: strings are taken verbatim, everything else via `repr`-like text. -/
def pyStr : Json → String
  | Json.str s => s
  | v => pyRepr v

/-- Model of Python `str.join` on `"\n"`-style separators. -/
def joinWith (sep : String) : List String → String
  | [] => ""
  | [x] => x
  | x :: y :: xs => x ++ sep ++ joinWith sep (y :: xs)

/-- Concatenation of a list of strings. -/
def strConcat : List String → String
  | [] => ""
  | s :: ss => s ++ strConcat ss

/-- Substring test on character lists. -/
def listContainsSub : List Char → List Char → Bool
  | hay, needle =>
    match hay with
    | [] => needle.isEmpty
    | _ :: t => needle.isPrefixOf hay || listContainsSub t needle

/-- Substring test on strings (Python `needle in hay`). -/
def strContainsB (hay needle : String) : Bool :=
  listContainsSub hay.toList needle.toList

/-- The Python exceptions the core can raise, as distinguishable kinds.
`nameError` carries the undefined identifier, not any message payload, since
a `NameError` raised by a failed name lookup never sees the would-be
constructor arguments. -/
inductive PyError where
  | functionCallConversionError (msg : String) : PyError
  | nameError (name : String) : PyError
  | valueError (msg : String) : PyError
  | keyError (key : String) : PyError
  | attributeError : PyError
  | assertionError : PyError
deriving DecidableEq

/-- `TextContent` from `message.py`: a text block. -/
structure TextContent where
  type : String := "text"
  cache_prompt : Bool := false
  text : String

/-- `ImageContent` from `message.py`: a block holding a list of image URLs. -/
structure ImageContent where
  type : String := "image_url"
  cache_prompt : Bool := false
  image_urls : List String

/-- `ToolCallContent` from `message.py`: a tool call from the LLM; the
arguments are kept as a raw JSON string. -/
structure ToolCallContent where
  type : String := "tool_call"
  cache_prompt : Bool := false
  function_name : String
  function_arguments : String
  tool_call_id : String

/-- `ToolResponseContent` from `message.py`: a tool response back to the LLM. -/
structure ToolResponseContent where
  type : String := "tool_response"
  cache_prompt : Bool := false
  tool_call_id : String
  name : String
  content : String

/-- `TextContent.serialize_model`. -/
def TextContent.serialize_model (c : TextContent) : Json :=
  let data := [("type", Json.str c.type), ("text", Json.str c.text)]
  if c.cache_prompt then
    Json.obj (data ++ [("cache_control", Json.obj [("type", Json.str "ephemeral")])])
  else Json.obj data

/-- Mutating `images[-1]['cache_control'] = ...`: append the cache-control
key to the last dict of the list. -/
def addCacheControlLast : List Json → List Json
  | [] => []
  | [Json.obj kvs] => [Json.obj (kvs ++ [("cache_control", Json.obj [("type", Json.str "ephemeral")])])]
  | [j] => [j]
  | j :: rest => j :: addCacheControlLast rest

/-- `ImageContent.serialize_model`: one dict per URL, cache control attached
to the last one when `cache_prompt` is set and the list is non-empty. -/
def ImageContent.serialize_model (c : ImageContent) : List Json :=
  let images := c.image_urls.map
    (fun url => Json.obj [("type", Json.str c.type), ("image_url", Json.obj [("url", Json.str url)])])
  if c.cache_prompt && !images.isEmpty then addCacheControlLast images else images

/-- `ToolCallContent.serialize_model`: the native-function-calling fragment. -/
def ToolCallContent.serialize_model (c : ToolCallContent) : Json :=
  Json.obj [("type", Json.str c.type),
    ("tool_calls", Json.arr [Json.obj [("id", Json.str c.tool_call_id),
      ("type", Json.str "function"),
      ("function", Json.obj [("name", Json.str c.function_name),
        ("arguments", Json.str c.function_arguments)])]])]

/-- `ToolResponseContent.serialize_model`. -/
def ToolResponseContent.serialize_model (c : ToolResponseContent) : Json :=
  Json.obj [("type", Json.str c.type), ("content", Json.str c.content)]

/-- `isinstance(param_value, str) and '\n' in param_value`. -/
def isMultilineVal : Json → Bool
  | Json.str s => s.toList.contains '\n'
  | _ => false

/-- One `<parameter=...>` chunk as appended by the encode loop. -/
def paramChunk (p : String × Json) : String :=
  "<parameter=" ++ p.1 ++ ">" ++ (if isMultilineVal p.2 then "\n" else "")
    ++ pyStr p.2 ++ (if isMultilineVal p.2 then "\n" else "") ++ "</parameter>\n"

/-- `ToolCallContent.to_string_format`: encode to the XML-like grammar.
On invalid-JSON arguments the except-handler evaluates
`FunctionCallConversionError(...)`, a name `message.py` never imports or
defines, and the name lookup happens before the message argument is built —
so the call actually raises a `NameError` naming that identifier, carrying no
argument string.  Valid JSON that is not an object makes `args.items()` fail. -/
def ToolCallContent.to_string_format (c : ToolCallContent) : Except PyError String :=
  match json_loads c.function_arguments with
  | none => Except.error (PyError.nameError "FunctionCallConversionError")
  | some (Json.obj args) =>
    Except.ok ((args.foldl (fun ret p => ret ++ paramChunk p)
      ("<function=" ++ c.function_name ++ ">\n")) ++ "</function>")
  | some _ => Except.error PyError.attributeError

/-- `ToolResponseContent.to_string_format`. -/
def ToolResponseContent.to_string_format (c : ToolResponseContent) : String :=
  "EXECUTION RESULT of [" ++ c.name ++ "]:\n" ++ c.content

/-- One entry of `Message.content`: the union
`TextContent | ImageContent | ToolCallContent | ToolResponseContent`. -/
inductive ContentItem where
  | text (c : TextContent) : ContentItem
  | image (c : ImageContent) : ContentItem
  | toolCall (c : ToolCallContent) : ContentItem
  | toolResponse (c : ToolResponseContent) : ContentItem

/-- `next((c for c in content if isinstance(c, ToolCallContent)), None)`. -/
def findToolCall : List ContentItem → Option ToolCallContent
  | [] => none
  | ContentItem.toolCall tc :: _ => some tc
  | _ :: rest => findToolCall rest

/-- `next((c for c in content if isinstance(c, ToolResponseContent)), None)`. -/
def findToolResponse : List ContentItem → Option ToolResponseContent
  | [] => none
  | ContentItem.toolResponse tr :: _ => some tr
  | _ :: rest => findToolResponse rest

/-- List-format content: serialize each block, splicing image expansions in
flat (`extend`) and appending every other fragment (`append`). -/
def listContent : List ContentItem → List Json
  | [] => []
  | ContentItem.text t :: rest => t.serialize_model :: listContent rest
  | ContentItem.image i :: rest => i.serialize_model ++ listContent rest
  | ContentItem.toolCall tc :: rest => tc.serialize_model :: listContent rest
  | ContentItem.toolResponse tr :: rest => tr.serialize_model :: listContent rest

/-- The texts of the `TextContent` blocks, in order. -/
def textTexts : List ContentItem → List String
  | [] => []
  | ContentItem.text t :: rest => t.text :: textTexts rest
  | _ :: rest => textTexts rest

/-- String-format content parts: text blocks contribute their text, tool
calls their codec encoding (which can fail), tool responses their execution
result text, and image blocks are skipped. -/
def stringContentParts : List ContentItem → Except PyError (List String)
  | [] => Except.ok []
  | ContentItem.text t :: rest => (stringContentParts rest).map (fun ps => t.text :: ps)
  | ContentItem.toolCall tc :: rest =>
    match tc.to_string_format with
    | Except.error e => Except.error e
    | Except.ok s => (stringContentParts rest).map (fun ps => s :: ps)
  | ContentItem.toolResponse tr :: rest =>
    (stringContentParts rest).map (fun ps => tr.to_string_format :: ps)
  | ContentItem.image _ :: rest => stringContentParts rest

/-- A raw tool-call function record (`{'name': ..., 'arguments': ...}`). -/
structure RawFunction where
  name : String
  arguments : String

/-- A raw native tool-call record (`{'id': ..., 'function': {...}}`). -/
structure RawToolCall where
  id : String
  function : RawFunction

/-- `Message` from `message.py`: one conversation turn. -/
structure Message where
  role : String
  content : List ContentItem := []
  cache_enabled : Bool := false
  vision_enabled : Bool := false
  function_calling_enabled : Bool := false
  tool_calls : Option (List RawToolCall) := none
  tool_call_id : Option String := none
  name : Option String := none

/-- `Message._string_function_serializer`: non-native function calling. -/
def Message.string_function_serializer (m : Message) (use_list_format : Bool) :
    Except PyError Json :=
  if use_list_format then
    Except.ok (Json.obj [("role", Json.str m.role), ("content", Json.arr (listContent m.content))])
  else
    match stringContentParts m.content with
    | Except.error e => Except.error e
    | Except.ok content_parts =>
      Except.ok (Json.obj [("role", Json.str m.role),
        ("content", Json.str (joinWith "\n" content_parts))])

/-- `Message._native_function_serializer`: native function calling; the first
tool call, else the first tool response, short-circuits. -/
def Message.native_function_serializer (m : Message) (use_list_format : Bool) :
    Except PyError Json :=
  match findToolCall m.content with
  | some tool_call_content =>
    Except.ok (Json.obj [("role", Json.str m.role), ("content", Json.null),
      ("tool_calls", Json.arr [Json.obj [("id", Json.str tool_call_content.tool_call_id),
        ("type", Json.str "function"),
        ("function", Json.obj [("name", Json.str tool_call_content.function_name),
          ("arguments", Json.str tool_call_content.function_arguments)])]])])
  | none =>
    match findToolResponse m.content with
    | some tool_response_content =>
      Except.ok (Json.obj [("role", Json.str m.role),
        ("content", Json.str tool_response_content.content),
        ("tool_call_id", Json.str tool_response_content.tool_call_id),
        ("name", Json.str tool_response_content.name)])
    | none =>
      if use_list_format then
        Except.ok (Json.obj [("role", Json.str m.role),
          ("content", Json.arr (listContent m.content))])
      else
        Except.ok (Json.obj [("role", Json.str m.role),
          ("content", Json.str (joinWith "\n" (textTexts m.content)))])

/-- `Message.serialize_model`: dispatch over the 2x2 format matrix. -/
def Message.serialize_model (m : Message) : Except PyError Json :=
  let needs_list_format := m.cache_enabled || m.vision_enabled
  if m.function_calling_enabled then m.native_function_serializer needs_list_format
  else m.string_function_serializer needs_list_format

/-- One parameter's schema entry (`properties[name]`): `type`, `description`
and `enum` are looked up with defaults, so absence is an `Option`. -/
structure ParamInfo where
  type : Option String := none
  description : Option String := none
  enum : Option (List String) := none

/-- `fn['parameters']`: `properties` (ordered) and `required`, both defaulted
to empty when the key is absent. -/
structure ToolParameters where
  properties : List (String × ParamInfo) := []
  required : List String := []

/-- `tool['function']`. -/
structure ToolFunction where
  name : String
  description : String
  parameters : Option ToolParameters := none

/-- One tool schema record. -/
structure Tool where
  type : String
  function : ToolFunction

/-- The parameter lines of one tool's description, numbering from `j + 1`. -/
def paramLinesLoop (required_params : List String) : Nat → List (String × ParamInfo) → String
  | _, [] => ""
  | j, (param_name, param_info) :: rest =>
    let param_status := if required_params.contains param_name then "required" else "optional"
    let param_type := param_info.type.getD "string"
    let desc0 := param_info.description.getD "No description provided"
    let desc :=
      match param_info.enum with
      | some vs =>
        desc0 ++ ("\nAllowed values: [" ++ joinWith ", " (vs.map (fun v => "`" ++ v ++ "`")) ++ "]")
      | none => desc0
    "  (" ++ toString (j + 1) ++ ") " ++ param_name ++ " (" ++ param_type ++ ", "
      ++ param_status ++ "): " ++ desc ++ "\n"
      ++ paramLinesLoop required_params (j + 1) rest

/-- One tool's description block, numbered `num` (1-based). -/
def singleToolDesc (num : Nat) (tool : Tool) : String :=
  "---- BEGIN FUNCTION #" ++ toString num ++ ": " ++ tool.function.name ++ " ----\n"
    ++ ("Description: " ++ tool.function.description ++ "\n")
    ++ (match tool.function.parameters with
        | some ps => "Parameters:\n" ++ paramLinesLoop ps.required 0 ps.properties
        | none => "No parameters are required for this function.\n")
    ++ ("---- END FUNCTION #" ++ toString num ++ " ----\n")

/-- The renderer's loop: asserts `tool['type'] == 'function'` per tool and
separates consecutive blocks with an extra newline. -/
def toolsDescLoop : Nat → List Tool → Except PyError String
  | _, [] => Except.ok ""
  | i, tool :: rest =>
    if tool.type = "function" then
      match toolsDescLoop (i + 1) rest with
      | Except.ok tail => Except.ok ((if i > 0 then "\n" else "") ++ singleToolDesc (i + 1) tool ++ tail)
      | Except.error e => Except.error e
    else Except.error PyError.assertionError

/-- `Message._tools_to_description`. -/
def Message.tools_to_description (tools : List Tool) : Except PyError String :=
  toolsDescLoop 0 tools

/-- A raw tool-call dict as passed to `Message._tool_call_to_string`;
`none` fields model absent keys. -/
structure ToolCallDict where
  function : Option RawFunction := none
  id : Option String := none
  type : Option String := none

/-- `Message._tool_call_to_string`: encode a raw tool-call dict to the
XML-like grammar.  All failures here are `ValueError`s. -/
def Message.tool_call_to_string (tool_call : ToolCallDict) : Except PyError String :=
  match tool_call.function with
  | none => Except.error (PyError.valueError "Tool call must contain \x27function\x27 key.")
  | some fn =>
    if tool_call.id = none then Except.error (PyError.valueError "Tool call must contain \x27id\x27 key.")
    else if tool_call.type = none then Except.error (PyError.valueError "Tool call must contain \x27type\x27 key.")
    else if tool_call.type ≠ some "function" then
      Except.error (PyError.valueError "Tool call type must be \x27function\x27.")
    else
      match json_loads fn.arguments with
      | none => Except.error (PyError.valueError
          ("Failed to parse arguments as JSON. Arguments: " ++ fn.arguments))
      | some (Json.obj args) =>
        Except.ok ((args.foldl (fun ret p => ret ++ paramChunk p)
          ("<function=" ++ fn.name ++ ">\n")) ++ "</function>")
      | some _ => Except.error PyError.attributeError

/-- Modelled from the spec: `IN_CONTEXT_LEARNING_EXAMPLE_PREFIX` is defined in
`openhands/llm/fn_call_converter.py`, which is not part of the given source;
the spec says only that it is a fixed literal string prefixed to the first
user message, so a concrete marker text stands in for it. -/
def IN_CONTEXT_LEARNING_EXAMPLE_PRE : String :=
  "--- BEGIN IN-CONTEXT EXAMPLE ---\n"

/-- Modelled from the spec: `IN_CONTEXT_LEARNING_EXAMPLE_SUFFIX` is defined in
`openhands/llm/fn_call_converter.py`, which is not part of the given source;
the spec says only that it is a fixed literal string suffixed to the first
user message, so a concrete marker text stands in for it. -/
def IN_CONTEXT_LEARNING_EXAMPLE_SUF : String :=
  "\n--- END IN-CONTEXT EXAMPLE ---"

/-- Modelled from the spec: `SYSTEM_PROMPT_SUFFIX_TEMPLATE` is defined in
`openhands/llm/fn_call_converter.py`, which is not part of the given source;
the spec says only that it is a fixed template with one substitution point
receiving the rendered tool description. -/
def SYSTEM_PROMPT_SUFFIX_TEMPLATE (description : String) : String :=
  "\nYou have access to the following functions:\n\n" ++ description

/-- One block of a raw message's list-form content: a `{'type': 'text'}` block
or (any other type) an image block carrying `image_url.url`. -/
inductive RawItem where
  | text (s : String) : RawItem
  | image (url : String) : RawItem

/-- A raw message's `content` value: a plain string or a block list. -/
inductive RawContent where
  | str (s : String) : RawContent
  | list (items : List RawItem) : RawContent

/-- A raw (pre-rewrite, native-format) message record; `none` models an
absent key. -/
structure RawMessage where
  role : String
  content : Option RawContent := none
  tool_calls : Option (List RawToolCall) := none
  tool_call_id : Option String := none
  name : Option String := none

/-- One entry of the rewriter's output: a freshly serialized dict, or a raw
message passed through unchanged. -/
inductive ConvOut where
  | dumped (j : Json) : ConvOut
  | raw (m : RawMessage) : ConvOut

/-- Wrap raw content blocks into `TextContent`/`ImageContent` items. -/
def rawItemsToContents (items : List RawItem) : List ContentItem :=
  items.map (fun it =>
    match it with
    | RawItem.text s => ContentItem.text ⟨"text", false, s⟩
    | RawItem.image url => ContentItem.image ⟨"image_url", false, [url]⟩)

/-- The system branch of the rewriter: append the system-prompt suffix and
serialize with `function_calling_enabled = False` (all other flags default). -/
def convertSystem (suffix : String) (content : RawContent) : Except PyError ConvOut :=
  let content_list :=
    match content with
    | RawContent.str s => [ContentItem.text ⟨"text", false, s ++ suffix⟩]
    | RawContent.list items => rawItemsToContents items ++ [ContentItem.text ⟨"text", false, suffix⟩]
  ((Message.mk "system" content_list false false false none none none).serialize_model).map
    ConvOut.dumped

/-- The first-user branch of the rewriter: wrap the content in the in-context
learning example markers and serialize non-natively. -/
def convertFirstUser (content : RawContent) : Except PyError ConvOut :=
  let content_list :=
    match content with
    | RawContent.str s =>
      [ContentItem.text ⟨"text", false,
        IN_CONTEXT_LEARNING_EXAMPLE_PRE ++ s ++ IN_CONTEXT_LEARNING_EXAMPLE_SUF⟩]
    | RawContent.list items =>
      ContentItem.text ⟨"text", false, IN_CONTEXT_LEARNING_EXAMPLE_PRE⟩
        :: (rawItemsToContents items
          ++ [ContentItem.text ⟨"text", false, IN_CONTEXT_LEARNING_EXAMPLE_SUF⟩])
  ((Message.mk "user" content_list false false false none none none).serialize_model).map
    ConvOut.dumped

/-- `if message.get('content'):` for the assistant branch: a non-empty string
becomes a leading text block; a non-empty list would be passed to
`TextContent(text=...)` and fail validation. -/
def assistantTextContent : Option RawContent → Except PyError (List ContentItem)
  | some (RawContent.str s) =>
    Except.ok (if s = "" then [] else [ContentItem.text ⟨"text", false, s⟩])
  | some (RawContent.list items) =>
    if items.isEmpty then Except.ok []
    else Except.error (PyError.valueError "Input should be a valid string")
  | none => Except.ok []

/-- The assistant-with-tool-calls branch: require exactly one tool call, then
an optional leading text block followed by one `ToolCallContent`. -/
def convertAssistant (message : RawMessage) : Except PyError ConvOut :=
  match message.tool_calls with
  | none => Except.error (PyError.keyError "tool_calls")
  | some tool_calls =>
    match tool_calls with
    | [tc0] =>
      match assistantTextContent message.content with
      | Except.error e => Except.error e
      | Except.ok lead =>
        ((Message.mk "assistant"
          (lead ++ [ContentItem.toolCall
            ⟨"tool_call", false, tc0.function.name, tc0.function.arguments, tc0.id⟩])
          false false false none none none).serialize_model).map ConvOut.dumped
    | other =>
      Except.error (PyError.valueError
        ("Expected exactly one tool call, got " ++ toString other.length))

/-- The tool branch: one `ToolResponseContent` from `tool_call_id`, `name`
(default `"function"`) and `content`. -/
def convertTool (message : RawMessage) : Except PyError ConvOut :=
  match message.tool_call_id with
  | none => Except.error (PyError.keyError "tool_call_id")
  | some tcid =>
    let nm := message.name.getD "function"
    match message.content with
    | some (RawContent.str s) =>
      ((Message.mk "tool" [ContentItem.toolResponse ⟨"tool_response", false, tcid, nm, s⟩]
        false false false none none none).serialize_model).map ConvOut.dumped
    | some (RawContent.list _) => Except.error (PyError.valueError "Input should be a valid string")
    | none => Except.error (PyError.keyError "content")

/-- One step of the rewriter's per-message policy, first-match-wins, returning
the produced entry and the updated first-user flag. -/
def convertOne (suffix : String) (message : RawMessage)
    (first_user_message_encountered : Bool) : Except PyError (ConvOut × Bool) :=
  let content := message.content.getD (RawContent.str "")
  if message.role = "system" then
    (convertSystem suffix content).map (fun o => (o, first_user_message_encountered))
  else if message.role = "user" ∧ first_user_message_encountered = false then
    (convertFirstUser content).map (fun o => (o, true))
  else if message.role = "assistant" ∧ message.tool_calls.isSome then
    (convertAssistant message).map (fun o => (o, first_user_message_encountered))
  else if message.role = "tool" then
    (convertTool message).map (fun o => (o, first_user_message_encountered))
  else Except.ok (ConvOut.raw message, first_user_message_encountered)

/-- The rewriter's message loop, threading the first-user flag. -/
def convertLoop (suffix : String) : List RawMessage → Bool → Except PyError (List ConvOut)
  | [], _ => Except.ok []
  | message :: rest, flag =>
    match convertOne suffix message flag with
    | Except.error e => Except.error e
    | Except.ok (o, flag2) =>
      match convertLoop suffix rest flag2 with
      | Except.error e => Except.error e
      | Except.ok tail => Except.ok (o :: tail)

/-- `Message.convert_messages_to_non_native`. -/
def Message.convert_messages_to_non_native (messages : List RawMessage) (tools : List Tool) :
    Except PyError (List ConvOut) :=
  match Message.tools_to_description tools with
  | Except.error e => Except.error e
  | Except.ok formatted_tools =>
    convertLoop (SYSTEM_PROMPT_SUFFIX_TEMPLATE formatted_tools) messages false

/-! Spec-side definitions, written from the specification's words, to be
compared with the source-derived definitions above. -/

/-- Spec 4.1: one expanded image fragment `{type:"image_url", image_url:{url}}`. -/
def specImageFragment (url : String) : Json :=
  Json.obj [("type", Json.str "image_url"), ("image_url", Json.obj [("url", Json.str url)])]

/-- Spec 4.1: an expanded image fragment carrying `cache_control`. -/
def specImageFragmentCC (url : String) : Json :=
  Json.obj [("type", Json.str "image_url"), ("image_url", Json.obj [("url", Json.str url)]),
    ("cache_control", Json.obj [("type", Json.str "ephemeral")])]

/-- Spec 4.3: one rendered parameter.  A value on its own lines exactly when
it is a string containing an internal newline; otherwise inlined; non-string
values via their stringified text form. -/
def specParamRender (p : String × Json) : String :=
  match p.2 with
  | Json.str s =>
    if s.toList.contains '\n' then
      "<parameter=" ++ p.1 ++ ">" ++ ("\n" ++ s ++ "\n") ++ "</parameter>\n"
    else "<parameter=" ++ p.1 ++ ">" ++ s ++ "</parameter>\n"
  | v => "<parameter=" ++ p.1 ++ ">" ++ pyStr v ++ "</parameter>\n"

/-- Spec 4.2 (string mode): the rendering each block contributes — a Text
block its text, a ToolCall block its codec encoding, a ToolResponse block the
execution-result text, an ImageReference block nothing. -/
def specRenderBlock : ContentItem → Except PyError (List String)
  | ContentItem.text t => Except.ok [t.text]
  | ContentItem.toolCall tc =>
    match tc.to_string_format with
    | Except.error e => Except.error e
    | Except.ok s => Except.ok [s]
  | ContentItem.toolResponse tr =>
    Except.ok ["EXECUTION RESULT of [" ++ tr.name ++ "]:\n" ++ tr.content]
  | ContentItem.image _ => Except.ok []

/-- Spec 4.4: one rendered parameter description line; `required` status from
membership in the schema's required name set, enum values appended as a
backtick-quoted comma-joined allowed-values line. -/
def specParamDesc (required : List String) (num : Nat) (param_name : String)
    (info : ParamInfo) : String :=
  "  (" ++ toString num ++ ") " ++ param_name ++ " (" ++ info.type.getD "string" ++ ", "
    ++ (if param_name ∈ required then "required" else "optional") ++ "): "
    ++ info.description.getD "No description provided"
    ++ (match info.enum with
        | some vs => "\nAllowed values: [" ++ joinWith ", " (vs.map (fun v => "`" ++ v ++ "`")) ++ "]"
        | none => "")
    ++ "\n"

/-- Spec 4.4: one tool's block with 1-based numbering, parameters numbered
1-based in input order, and the substitution line when no parameters are
declared. -/
def specToolDesc (num : Nat) (t : Tool) : String :=
  "---- BEGIN FUNCTION #" ++ toString num ++ ": " ++ t.function.name ++ " ----\n"
    ++ "Description: " ++ t.function.description ++ "\n"
    ++ (match t.function.parameters with
        | none => "No parameters are required for this function.\n"
        | some ps => "Parameters:\n"
            ++ strConcat (ps.properties.enum.map
              (fun q => specParamDesc ps.required (q.1 + 1) q.2.1 q.2.2)))
    ++ ("---- END FUNCTION #" ++ toString num ++ " ----\n")

/-- Spec 4.4: the whole description — 1-based blocks in input order,
consecutive blocks separated by a blank line. -/
def specToolsDescription (tools : List Tool) : String :=
  joinWith "\n" (tools.enum.map (fun q => specToolDesc (q.1 + 1) q.2))

/-- The texts of the text blocks of a raw list-form content, in order. -/
def textsOf : List RawItem → List String
  | [] => []
  | RawItem.text s :: rest => s :: textsOf rest
  | RawItem.image _ :: rest => textsOf rest

/-- Whether some message of the list is a user message. -/
def hasUser (msgs : List RawMessage) : Bool :=
  msgs.any (fun m => m.role = "user")

/-! Helper lemmas. -/

theorem strConcat_cons (s : String) (l : List String) :
    strConcat (s :: l) = s ++ strConcat l := rfl

theorem foldl_append_eq_strConcat {α : Type} (f : α → String) (l : List α) (init : String) :
    l.foldl (fun r x => r ++ f x) init = init ++ strConcat (l.map f) := by
  induction l generalizing init with
  | nil => simp [strConcat, String.append_empty]
  | cons x xs ih =>
    simp only [List.foldl_cons, List.map_cons, strConcat_cons]
    rw [ih, String.append_assoc]

theorem paramChunk_eq_spec (p : String × Json) : paramChunk p = specParamRender p := by
  obtain ⟨k, v⟩ := p
  cases v with
  | str s =>
    by_cases h : '\n' ∈ s.toList
    · simp only [paramChunk, specParamRender, isMultilineVal, pyStr]
      rw [if_pos (by simpa using h), if_pos (by simpa using h)]
      simp only [String.append_assoc]
    · simp only [paramChunk, specParamRender, isMultilineVal, pyStr]
      rw [if_neg (by simpa using h), if_neg (by simpa using h)]
      simp [String.append_empty, String.empty_append, String.append_assoc]
  | null =>
    simp [paramChunk, specParamRender, isMultilineVal, pyStr, String.append_empty,
      String.append_assoc]
  | bool b =>
    simp [paramChunk, specParamRender, isMultilineVal, pyStr, String.append_empty,
      String.append_assoc]
  | int n =>
    simp [paramChunk, specParamRender, isMultilineVal, pyStr, String.append_empty,
      String.append_assoc]
  | float r =>
    simp [paramChunk, specParamRender, isMultilineVal, pyStr, String.append_empty,
      String.append_assoc]
  | arr xs =>
    simp [paramChunk, specParamRender, isMultilineVal, pyStr, String.append_empty,
      String.append_assoc]
  | obj kvs =>
    simp [paramChunk, specParamRender, isMultilineVal, pyStr, String.append_empty,
      String.append_assoc]

theorem to_string_format_of_obj (c : ToolCallContent) (args : List (String × Json))
    (h : json_loads c.function_arguments = some (Json.obj args)) :
    c.to_string_format = Except.ok ("<function=" ++ c.function_name ++ ">\n"
      ++ strConcat (args.map paramChunk) ++ "</function>") := by
  simp only [ToolCallContent.to_string_format, h]
  rw [foldl_append_eq_strConcat]

theorem to_string_format_of_invalid (c : ToolCallContent)
    (h : json_loads c.function_arguments = none) :
    c.to_string_format = Except.error (PyError.nameError "FunctionCallConversionError") := by
  simp only [ToolCallContent.to_string_format, h]

theorem addCacheControlLast_cons₂ (j a : Json) (l : List Json) :
    addCacheControlLast (j :: a :: l) = j :: addCacheControlLast (a :: l) := by
  cases j <;> rfl

theorem addCacheControlLast_snoc (l : List Json) (kvs : List (String × Json)) :
    addCacheControlLast (l ++ [Json.obj kvs]) =
      l ++ [Json.obj (kvs ++ [("cache_control", Json.obj [("type", Json.str "ephemeral")])])] := by
  induction l with
  | nil => rfl
  | cons j l ih =>
    cases l with
    | nil =>
      simp only [List.nil_append, List.singleton_append]
      rw [addCacheControlLast_cons₂]
      rfl
    | cons a l2 =>
      simp only [List.cons_append] at ih ⊢
      rw [addCacheControlLast_cons₂, ih]

theorem stringContentParts_eq_spec (content : List ContentItem) :
    stringContentParts content = (content.mapM specRenderBlock).map List.flatten := by
  induction content with
  | nil => rfl
  | cons item rest ih =>
    rw [List.mapM_cons]
    cases item with
    | text t =>
      simp only [stringContentParts, specRenderBlock, ih]
      cases h : rest.mapM specRenderBlock <;> rfl
    | toolCall tc =>
      cases g : tc.to_string_format with
      | error e => simp only [stringContentParts, specRenderBlock, g]; rfl
      | ok s =>
        simp only [stringContentParts, specRenderBlock, g, ih]
        cases h : rest.mapM specRenderBlock <;> rfl
    | toolResponse tr =>
      simp only [stringContentParts, specRenderBlock, ih, ToolResponseContent.to_string_format]
      cases h : rest.mapM specRenderBlock <;> rfl
    | image i =>
      simp only [stringContentParts, specRenderBlock, ih]
      cases h : rest.mapM specRenderBlock <;> rfl

theorem contains_eq_mem (l : List String) (a : String) : l.contains a = decide (a ∈ l) := by
  simp [List.contains]

theorem paramLinesLoop_eq_spec (req : List String) (props : List (String × ParamInfo)) :
    ∀ j, paramLinesLoop req j props =
      strConcat ((props.enumFrom j).map (fun q => specParamDesc req (q.1 + 1) q.2.1 q.2.2)) := by
  induction props with
  | nil => intro j; rfl
  | cons p rest ih =>
    intro j
    obtain ⟨pname, info⟩ := p
    obtain ⟨ty, dsc, en⟩ := info
    have hrec := ih (j + 1)
    by_cases hm : pname ∈ req
    · cases en <;>
        (simp [paramLinesLoop, specParamDesc, hrec, hm, contains_eq_mem,
          String.append_assoc, String.append_empty, List.enumFrom, strConcat_cons]) <;> rfl
    · cases en <;>
        (simp [paramLinesLoop, specParamDesc, hrec, hm, contains_eq_mem,
          String.append_assoc, String.append_empty, List.enumFrom, strConcat_cons]) <;> rfl

theorem singleToolDesc_eq_spec (num : Nat) (t : Tool) : singleToolDesc num t = specToolDesc num t := by
  obtain ⟨ty, fn⟩ := t
  obtain ⟨nm, dsc, params⟩ := fn
  cases params with
  | none =>
    simp [singleToolDesc, specToolDesc, String.append_assoc]
    rfl
  | some ps =>
    simp [singleToolDesc, specToolDesc, paramLinesLoop_eq_spec, List.enum,
      String.append_assoc]
    rfl

theorem append_newline_concat_eq_joinWith {α : Type} (g : α → String) (l : List α) :
    ∀ b, b ++ strConcat (l.map (fun x => "\n" ++ g x)) = joinWith "\n" (b :: l.map g) := by
  induction l with
  | nil => intro b; simp [strConcat, joinWith, String.append_empty]
  | cons x xs ih =>
    intro b
    simp only [List.map_cons, strConcat_cons, joinWith]
    rw [← ih (g x)]
    simp [String.append_assoc]

theorem toolsDescLoop_shift (ts : List Tool) :
    ∀ k, (∀ t ∈ ts, t.type = "function") →
    toolsDescLoop (k + 1) ts =
      Except.ok (strConcat ((ts.enumFrom (k + 1)).map
        (fun q => "\n" ++ specToolDesc (q.1 + 1) q.2))) := by
  induction ts with
  | nil => intro k h; rfl
  | cons t rest ih =>
    intro k h
    have ht : t.type = "function" := h t (by simp)
    have hrest := ih (k + 1) (fun x hx => h x (by simp [hx]))
    simp only [toolsDescLoop, ht, if_pos, hrest]
    rw [if_pos (Nat.succ_pos k)]
    simp [singleToolDesc_eq_spec, String.append_assoc, List.enumFrom, strConcat_cons]

theorem tools_to_description_eq_spec (tools : List Tool)
    (h : ∀ t ∈ tools, t.type = "function") :
    Message.tools_to_description tools = Except.ok (specToolsDescription tools) := by
  cases tools with
  | nil => rfl
  | cons t rest =>
    have ht : t.type = "function" := h t (by simp)
    have hrest := toolsDescLoop_shift rest 0 (fun x hx => h x (by simp [hx]))
    simp only [Message.tools_to_description, toolsDescLoop, ht, if_pos, hrest]
    rw [if_neg (by omega), String.empty_append]
    rw [append_newline_concat_eq_joinWith (fun q => specToolDesc (q.1 + 1) q.2)
      (List.enumFrom 1 rest) (singleToolDesc 1 t)]
    simp [specToolsDescription, List.enum, List.enumFrom, singleToolDesc_eq_spec]

theorem stringContentParts_rawItems (items : List RawItem) (rest : List ContentItem) :
    stringContentParts (rawItemsToContents items ++ rest) =
      (stringContentParts rest).map (fun ps => textsOf items ++ ps) := by
  induction items with
  | nil =>
    simp only [rawItemsToContents, List.map_nil, List.nil_append, textsOf]
    cases stringContentParts rest <;> rfl
  | cons it its ih =>
    cases it with
    | text s =>
      simp only [rawItemsToContents, List.map_cons, List.cons_append, stringContentParts,
        textsOf, List.append_eq] at ih ⊢
      rw [ih]
      cases stringContentParts rest <;> rfl
    | image url =>
      simp only [rawItemsToContents, List.map_cons, List.cons_append, stringContentParts,
        textsOf, List.append_eq] at ih ⊢
      rw [ih]

theorem serialize_non_native (role : String) (cl : List ContentItem) :
    (Message.mk role cl false false false none none none).serialize_model =
      (stringContentParts cl).map (fun parts => Json.obj [("role", Json.str role),
        ("content", Json.str (joinWith "\n" parts))]) := by
  cases h : stringContentParts cl <;>
    simp [Message.serialize_model, Message.string_function_serializer, h, Except.map]

theorem convertOne_system (suffix : String) (m : RawMessage) (flag : Bool)
    (h : m.role = "system") :
    convertOne suffix m flag =
      (convertSystem suffix (m.content.getD (RawContent.str ""))).map (fun o => (o, flag)) := by
  simp [convertOne, h]

theorem convertOne_user_first (suffix : String) (m : RawMessage)
    (h : m.role = "user") :
    convertOne suffix m false =
      (convertFirstUser (m.content.getD (RawContent.str ""))).map (fun o => (o, true)) := by
  simp [convertOne, h]

theorem convertOne_user_later (suffix : String) (m : RawMessage)
    (h : m.role = "user") :
    convertOne suffix m true = Except.ok (ConvOut.raw m, true) := by
  simp [convertOne, h]

theorem convertOne_assistant (suffix : String) (m : RawMessage) (flag : Bool)
    (tcs : List RawToolCall) (h : m.role = "assistant") (htc : m.tool_calls = some tcs) :
    convertOne suffix m flag = (convertAssistant m).map (fun o => (o, flag)) := by
  simp [convertOne, h, htc]

theorem convertOne_tool (suffix : String) (m : RawMessage) (flag : Bool)
    (h : m.role = "tool") :
    convertOne suffix m flag = (convertTool m).map (fun o => (o, flag)) := by
  simp [convertOne, h]

theorem convertOne_other (suffix : String) (m : RawMessage) (flag : Bool)
    (h1 : m.role ≠ "system") (h2 : ¬(m.role = "user" ∧ flag = false))
    (h3 : ¬(m.role = "assistant" ∧ m.tool_calls.isSome)) (h4 : m.role ≠ "tool") :
    convertOne suffix m flag = Except.ok (ConvOut.raw m, flag) := by
  simp [convertOne, h1, h2, h3, h4]

theorem convertOne_flag (suffix : String) (m : RawMessage) (flag : Bool) (o : ConvOut) (f2 : Bool)
    (h : convertOne suffix m flag = Except.ok (o, f2)) :
    f2 = (flag || decide (m.role = "user")) := by
  by_cases h1 : m.role = "system"
  · rw [convertOne_system suffix m flag h1] at h
    cases hc : convertSystem suffix (m.content.getD (RawContent.str "")) <;> rw [hc] at h <;>
      simp [Except.map] at h
    simp [h1, ← h.2]
  · by_cases h2 : m.role = "user"
    · cases flag with
      | false =>
        rw [convertOne_user_first suffix m h2] at h
        cases hc : convertFirstUser (m.content.getD (RawContent.str "")) <;> rw [hc] at h <;>
          simp [Except.map] at h
        simp [h2, ← h.2]
      | true =>
        rw [convertOne_user_later suffix m h2] at h
        simp at h
        simp [h2, ← h.2]
    · by_cases h3 : m.role = "assistant" ∧ m.tool_calls.isSome
      · obtain ⟨h3a, h3b⟩ := h3
        obtain ⟨tcs, htc⟩ := Option.isSome_iff_exists.mp h3b
        rw [convertOne_assistant suffix m flag tcs h3a htc] at h
        cases hc : convertAssistant m <;> rw [hc] at h <;> simp [Except.map] at h
        simp [h3a, h2, ← h.2]
      · by_cases h4 : m.role = "tool"
        · rw [convertOne_tool suffix m flag h4] at h
          cases hc : convertTool m <;> rw [hc] at h <;> simp [Except.map] at h
          simp [h4, ← h.2]
        · rw [convertOne_other suffix m flag h1 (by simp [h2]) h3 h4] at h
          simp at h
          simp [h2, ← h.2]

theorem convertLoop_cons_inv (suffix : String) (m : RawMessage) (rest : List RawMessage)
    (flag : Bool) (out : List ConvOut)
    (h : convertLoop suffix (m :: rest) flag = Except.ok out) :
    ∃ o f2 tail, convertOne suffix m flag = Except.ok (o, f2) ∧
      convertLoop suffix rest f2 = Except.ok tail ∧ out = o :: tail := by
  rw [convertLoop] at h
  cases h1 : convertOne suffix m flag with
  | error e => rw [h1] at h; simp at h
  | ok p =>
    obtain ⟨o, f2⟩ := p
    rw [h1] at h
    dsimp only at h
    cases h2 : convertLoop suffix rest f2 with
    | error e => rw [h2] at h; simp at h
    | ok tail =>
      rw [h2] at h
      simp at h
      exact ⟨o, f2, tail, rfl, h2, h.symm⟩

theorem convertFirstUser_str (s : String) :
    convertFirstUser (RawContent.str s) =
      Except.ok (ConvOut.dumped (Json.obj [("role", Json.str "user"),
        ("content", Json.str (IN_CONTEXT_LEARNING_EXAMPLE_PRE ++ s
          ++ IN_CONTEXT_LEARNING_EXAMPLE_SUF))])) := by
  rfl

theorem convertLoop_later_user (suffix : String) (msgs : List RawMessage) :
    ∀ flag out, convertLoop suffix msgs flag = Except.ok out →
    ∀ i, ∀ hi : i < msgs.length, (msgs.get ⟨i, hi⟩).role = "user" →
    (flag || hasUser (msgs.take i)) = true →
    out.get? i = some (ConvOut.raw (msgs.get ⟨i, hi⟩)) := by
  induction msgs with
  | nil =>
    intro flag out h i hi
    exact absurd hi (by simp)
  | cons m rest ih =>
    intro flag out h i hi hrole hflag
    obtain ⟨o, f2, tail, h1, h2, rfl⟩ := convertLoop_cons_inv suffix m rest flag out h
    cases i with
    | zero =>
      have hf : flag = true := by simpa [hasUser] using hflag
      subst hf
      rw [convertOne_user_later suffix m (by simpa using hrole)] at h1
      simp at h1
      simp [h1.1]
    | succ j =>
      have hj : j < rest.length := by simpa using hi
      have hrole2 : (rest.get ⟨j, hj⟩).role = "user" := by simpa using hrole
      have hfeq := convertOne_flag suffix m flag o f2 h1
      have hflag2 : (f2 || hasUser (rest.take j)) = true := by
        rw [hfeq]
        simp only [List.take_succ_cons, hasUser, List.any_cons] at hflag ⊢
        simp only [Bool.or_eq_true] at hflag ⊢
        tauto
      have := ih f2 tail h2 j hj hrole2 hflag2
      simpa using this

theorem convertLoop_first_user (suffix : String) (msgs : List RawMessage) :
    ∀ flag out, convertLoop suffix msgs flag = Except.ok out →
    ∀ i, ∀ hi : i < msgs.length, ∀ s, (msgs.get ⟨i, hi⟩).role = "user" →
    (msgs.get ⟨i, hi⟩).content = some (RawContent.str s) →
    (flag || hasUser (msgs.take i)) = false →
    out.get? i = some (ConvOut.dumped (Json.obj [("role", Json.str "user"),
      ("content", Json.str (IN_CONTEXT_LEARNING_EXAMPLE_PRE ++ s
        ++ IN_CONTEXT_LEARNING_EXAMPLE_SUF))])) := by
  induction msgs with
  | nil =>
    intro flag out h i hi
    exact absurd hi (by simp)
  | cons m rest ih =>
    intro flag out h i hi s hrole hcontent hflag
    obtain ⟨o, f2, tail, h1, h2, rfl⟩ := convertLoop_cons_inv suffix m rest flag out h
    cases i with
    | zero =>
      have hf : flag = false := by simpa [hasUser] using hflag
      subst hf
      rw [convertOne_user_first suffix m (by simpa using hrole)] at h1
      have hc : m.content = some (RawContent.str s) := by simpa using hcontent
      rw [hc] at h1
      simp only [Option.getD_some] at h1
      rw [convertFirstUser_str] at h1
      simp [Except.map] at h1
      simp [h1.1]
    | succ j =>
      have hj : j < rest.length := by simpa using hi
      have hrole2 : (rest.get ⟨j, hj⟩).role = "user" := by simpa using hrole
      have hcontent2 : (rest.get ⟨j, hj⟩).content = some (RawContent.str s) := by
        simpa using hcontent
      have hfeq := convertOne_flag suffix m flag o f2 h1
      have hflag2 : (f2 || hasUser (rest.take j)) = false := by
        rw [hfeq]
        simp only [List.take_succ_cons, hasUser, List.any_cons] at hflag ⊢
        simp only [Bool.or_eq_false_iff] at hflag ⊢
        tauto
      have := ih f2 tail h2 j hj s hrole2 hcontent2 hflag2
      simpa using this

theorem convertSystem_list (suffix : String) (items : List RawItem) :
    convertSystem suffix (RawContent.list items) =
      Except.ok (ConvOut.dumped (Json.obj [("role", Json.str "system"),
        ("content", Json.str (joinWith "\n" (textsOf items ++ [suffix])))])) := by
  simp only [convertSystem]
  rw [serialize_non_native,
    stringContentParts_rawItems items [ContentItem.text ⟨"text", false, suffix⟩]]
  simp [stringContentParts, Except.map]

theorem convertFirstUser_list (items : List RawItem) :
    convertFirstUser (RawContent.list items) =
      Except.ok (ConvOut.dumped (Json.obj [("role", Json.str "user"),
        ("content", Json.str (joinWith "\n" (IN_CONTEXT_LEARNING_EXAMPLE_PRE ::
          (textsOf items ++ [IN_CONTEXT_LEARNING_EXAMPLE_SUF]))))])) := by
  simp only [convertFirstUser]
  rw [serialize_non_native]
  simp only [stringContentParts]
  rw [stringContentParts_rawItems items
    [ContentItem.text ⟨"text", false, IN_CONTEXT_LEARNING_EXAMPLE_SUF⟩]]
  simp [stringContentParts, Except.map]

theorem tool_call_to_string_invalid (d : ToolCallDict) (fn : RawFunction) (i : String)
    (hf : d.function = some fn) (hid : d.id = some i) (ht : d.type = some "function")
    (h : json_loads fn.arguments = none) :
    Message.tool_call_to_string d = Except.error (PyError.valueError
      ("Failed to parse arguments as JSON. Arguments: " ++ fn.arguments)) := by
  simp [Message.tool_call_to_string, hf, hid, ht, h]

/-- C1 counterexample: neither encode direction fails with a
`FunctionCallConversionError` on invalid-JSON arguments.  The
`ToolCallContent` path raises a `NameError` for the unimported name
`FunctionCallConversionError` — an error whose payload does not contain the
offending argument string — and the raw tool-call dict path raises a
`ValueError`, so the claim as stated is false at these concrete inputs. -/
theorem C1_counterexample :
    ToolCallContent.to_string_format ⟨"tool_call", false, "run", "not json", "id1"⟩ =
      Except.error (PyError.nameError "FunctionCallConversionError")
    ∧ PyError.nameError "FunctionCallConversionError" ≠
        PyError.functionCallConversionError
          "Failed to parse arguments as JSON. Arguments: not json"
    ∧ strContainsB "FunctionCallConversionError" "not json" = false
    ∧ Message.tool_call_to_string
        ⟨some (RawFunction.mk "run" "not json"), some "1", some "function"⟩ =
      Except.error (PyError.valueError "Failed to parse arguments as JSON. Arguments: not json")
    ∧ PyError.valueError "Failed to parse arguments as JSON. Arguments: not json" ≠
        PyError.functionCallConversionError
          "Failed to parse arguments as JSON. Arguments: not json" := by
  exact ⟨rfl, by simp, by rfl, rfl, by simp⟩

/-- C1 (amended): for every ToolCallContent whose arguments string is not
valid JSON, to_string_format raises a NameError for the undefined name
FunctionCallConversionError (message.py names it at the raise site but never
imports it), so the error does not identify the offending argument string;
for a raw tool-call dict, _tool_call_to_string raises a ValueError that does
carry the identifying message.  In both directions the result is a pure
error, so no partial function block is ever emitted. -/
theorem C1_amended_encode_errors :
    (∀ c : ToolCallContent, json_loads c.function_arguments = none →
      c.to_string_format = Except.error (PyError.nameError "FunctionCallConversionError"))
    ∧ (∀ (d : ToolCallDict) (fn : RawFunction) (i : String),
      d.function = some fn → d.id = some i → d.type = some "function" →
      json_loads fn.arguments = none →
      Message.tool_call_to_string d = Except.error (PyError.valueError
        ("Failed to parse arguments as JSON. Arguments: " ++ fn.arguments))) :=
  ⟨fun c h => to_string_format_of_invalid c h,
   fun d fn i hf hid ht h => tool_call_to_string_invalid d fn i hf hid ht h⟩

/-- C1 witness: a concrete invalid-JSON arguments string exercising both
encode directions. -/
theorem C1_witness :
    json_loads "not json" = none
    ∧ ToolCallContent.to_string_format ⟨"tool_call", false, "run", "not json", "id1"⟩ =
      Except.error (PyError.nameError "FunctionCallConversionError")
    ∧ Message.tool_call_to_string
        ⟨some (RawFunction.mk "run" "not json"), some "1", some "function"⟩ =
      Except.error (PyError.valueError
        ("Failed to parse arguments as JSON. Arguments: " ++ "not json")) := by
  refine ⟨rfl, ?_, ?_⟩
  · exact C1_amended_encode_errors.1 ⟨"tool_call", false, "run", "not json", "id1"⟩ rfl
  · exact C1_amended_encode_errors.2
      ⟨some (RawFunction.mk "run" "not json"), some "1", some "function"⟩
      (RawFunction.mk "run" "not json") "1" rfl rfl rfl rfl

/-- C2: for a message holding exactly one Text block "hello", under every
combination of the cache/vision flags (whose disjunction selects list format)
and of the native-function-calling flag, the serialized output has the role
field, and its content is the single string "hello" in string mode and the
one-element list of the text fragment in list mode. -/
theorem C2_format_matrix (role : String) (cache vision fc : Bool) :
    (Message.mk role [ContentItem.text ⟨"text", false, "hello"⟩]
      cache vision fc none none none).serialize_model =
    Except.ok (Json.obj [("role", Json.str role),
      ("content", if cache || vision then
        Json.arr [Json.obj [("type", Json.str "text"), ("text", Json.str "hello")]]
        else Json.str "hello")]) := by
  cases cache <;> cases vision <;> cases fc <;> rfl

/-- C3: under native function calling, a message containing a ToolCall block
serializes to null content plus a singleton tool_calls list built from the
first such block found, with no other keys emitted; otherwise a message
containing a ToolResponse block serializes to that first response's content
string plus message-level tool_call_id and name, short-circuiting the rest. -/
theorem C3_native_short_circuit (m : Message) (hfc : m.function_calling_enabled = true) :
    (∀ tc, findToolCall m.content = some tc →
      m.serialize_model = Except.ok (Json.obj [("role", Json.str m.role),
        ("content", Json.null),
        ("tool_calls", Json.arr [Json.obj [("id", Json.str tc.tool_call_id),
          ("type", Json.str "function"),
          ("function", Json.obj [("name", Json.str tc.function_name),
            ("arguments", Json.str tc.function_arguments)])]])]))
    ∧ (findToolCall m.content = none → ∀ tr, findToolResponse m.content = some tr →
      m.serialize_model = Except.ok (Json.obj [("role", Json.str m.role),
        ("content", Json.str tr.content),
        ("tool_call_id", Json.str tr.tool_call_id),
        ("name", Json.str tr.name)])) := by
  constructor
  · intro tc htc
    simp [Message.serialize_model, Message.native_function_serializer, hfc, htc]
  · intro hnone tr htr
    simp [Message.serialize_model, Message.native_function_serializer, hfc, hnone, htr]

/-- C3 witness: one message whose content holds a text block followed by a
tool call, and one holding a tool response. -/
theorem C3_witness :
    (Message.mk "assistant" [ContentItem.text ⟨"text", false, "x"⟩,
        ContentItem.toolCall ⟨"tool_call", false, "ls", "\x7b\x7d", "id1"⟩]
        false false true none none none).serialize_model =
      Except.ok (Json.obj [("role", Json.str "assistant"), ("content", Json.null),
        ("tool_calls", Json.arr [Json.obj [("id", Json.str "id1"),
          ("type", Json.str "function"),
          ("function", Json.obj [("name", Json.str "ls"),
            ("arguments", Json.str "\x7b\x7d")])]])])
    ∧ (Message.mk "tool" [ContentItem.toolResponse
          ⟨"tool_response", false, "id1", "ls", "a.txt"⟩]
        false false true none none none).serialize_model =
      Except.ok (Json.obj [("role", Json.str "tool"), ("content", Json.str "a.txt"),
        ("tool_call_id", Json.str "id1"), ("name", Json.str "ls")]) := by
  constructor
  · exact (C3_native_short_circuit
      (Message.mk "assistant" [ContentItem.text ⟨"text", false, "x"⟩,
        ContentItem.toolCall ⟨"tool_call", false, "ls", "\x7b\x7d", "id1"⟩]
        false false true none none none) rfl).1
      ⟨"tool_call", false, "ls", "\x7b\x7d", "id1"⟩ rfl
  · exact (C3_native_short_circuit
      (Message.mk "tool" [ContentItem.toolResponse
        ⟨"tool_response", false, "id1", "ls", "a.txt"⟩]
        false false true none none none) rfl).2 rfl
      ⟨"tool_response", false, "id1", "ls", "a.txt"⟩ rfl

/-- C6: an ImageReference block expands to exactly one image fragment per URL
in URL order; when `cache_prompt` is set and the URL list is non-empty,
`cache_control` is attached to the last fragment only and to none of the
earlier ones; an empty URL list expands to nothing. -/
theorem C6_image_expansion :
    (∀ (us : List String) (u : String),
      (ImageContent.mk "image_url" true (us ++ [u])).serialize_model =
        us.map specImageFragment ++ [specImageFragmentCC u])
    ∧ (∀ (us : List String) (u : String),
      (ImageContent.mk "image_url" false (us ++ [u])).serialize_model =
        us.map specImageFragment ++ [specImageFragment u])
    ∧ (∀ cp : Bool, (ImageContent.mk "image_url" cp []).serialize_model = []) := by
  refine ⟨?_, ?_, ?_⟩
  · intro us u
    simp [ImageContent.serialize_model, List.map_append, addCacheControlLast_snoc,
      specImageFragment, specImageFragmentCC]
  · intro us u
    simp [ImageContent.serialize_model, List.map_append, specImageFragment]
  · intro cp
    cases cp <;> rfl

/-- C7: with non-native function calling and string-format content, the
serialized content is the single string joining, with newlines and in content
order, each block's rendering — a Text block its text, a ToolCall block its
codec encoding, a ToolResponse block the execution-result text — while every
ImageReference block contributes nothing. -/
theorem C7_string_mode_join (role : String) (content : List ContentItem) :
    (Message.mk role content false false false none none none).serialize_model =
      (content.mapM specRenderBlock).map (fun ls => Json.obj [("role", Json.str role),
        ("content", Json.str (joinWith "\n" ls.flatten))]) := by
  rw [serialize_non_native, stringContentParts_eq_spec]
  cases content.mapM specRenderBlock <;> rfl

/-- C8: when the arguments string decodes to a JSON object, the encoder emits
one parameter chunk per key in the decoded object's key order, where a value
is bracketed by newlines exactly when it is a string containing an internal
newline, is inlined otherwise, and non-string values are rendered through
their stringified text form. -/
theorem C8_param_render (c : ToolCallContent) (args : List (String × Json))
    (h : json_loads c.function_arguments = some (Json.obj args)) :
    c.to_string_format = Except.ok ("<function=" ++ c.function_name ++ ">\n"
      ++ strConcat (args.map specParamRender) ++ "</function>") := by
  rw [to_string_format_of_obj c args h]
  rw [funext paramChunk_eq_spec]

/-- C8 witness: a two-parameter object with a multiline string value and an
integer value. -/
theorem C8_witness :
    json_loads "\x7b\"cmd\": \"ls -la\\necho hi\", \"n\": 3\x7d" =
      some (Json.obj [("cmd", Json.str "ls -la\necho hi"), ("n", Json.int 3)])
    ∧ ToolCallContent.to_string_format
        ⟨"tool_call", false, "run", "\x7b\"cmd\": \"ls -la\\necho hi\", \"n\": 3\x7d", "id1"⟩ =
      Except.ok ("<function=" ++ "run" ++ ">\n"
        ++ strConcat ([("cmd", Json.str "ls -la\necho hi"),
            ("n", Json.int 3)].map specParamRender)
        ++ "</function>") := by
  exact ⟨rfl, C8_param_render
    ⟨"tool_call", false, "run", "\x7b\"cmd\": \"ls -la\\necho hi\", \"n\": 3\x7d", "id1"⟩
    [("cmd", Json.str "ls -la\necho hi"), ("n", Json.int 3)] rfl⟩

/-- C9: when every schema is of type "function", the renderer produces the
specified description text: blocks numbered 1-based in input order separated
by a blank line, the no-parameters substitution line when a tool declares no
parameters, parameters numbered 1-based with required/optional computed from
membership in the required name set, and an allowed-values line of
backtick-quoted comma-joined values when an enum is present. -/
theorem C9_tools_description (tools : List Tool) (h : ∀ t ∈ tools, t.type = "function") :
    Message.tools_to_description tools = Except.ok (specToolsDescription tools) :=
  tools_to_description_eq_spec tools h

/-- C9 witness: a tool with a required parameter and an enum parameter,
followed by one with no parameters. -/
theorem C9_witness :
    Message.tools_to_description
        [Tool.mk "function" (ToolFunction.mk "run" "Run a command"
          (some (ToolParameters.mk
            [("cmd", ParamInfo.mk (some "string") (some "The command") none),
             ("mode", ParamInfo.mk none none (some ["fast", "slow"]))] ["cmd"]))),
         Tool.mk "function" (ToolFunction.mk "noop" "Do nothing" none)] =
      Except.ok (specToolsDescription
        [Tool.mk "function" (ToolFunction.mk "run" "Run a command"
          (some (ToolParameters.mk
            [("cmd", ParamInfo.mk (some "string") (some "The command") none),
             ("mode", ParamInfo.mk none none (some ["fast", "slow"]))] ["cmd"]))),
         Tool.mk "function" (ToolFunction.mk "noop" "Do nothing" none)]) := by
  exact C9_tools_description _ (by decide)

/-- C4: rewriting a single raw assistant message that carries a tool_calls
list of length other than one fails with the tool-call-cardinality
`ValueError` naming the actual count; with exactly one tool call (whose
arguments decode to a JSON object and whose content, if present, is a
string) the rewrite succeeds. -/
theorem C4_tool_call_cardinality (tools : List Tool) (d : String) (m : RawMessage)
    (tcs : List RawToolCall) (hd : Message.tools_to_description tools = Except.ok d)
    (hrole : m.role = "assistant") (htc : m.tool_calls = some tcs) :
    (tcs.length ≠ 1 → Message.convert_messages_to_non_native [m] tools =
      Except.error (PyError.valueError ("Expected exactly one tool call, got "
        ++ toString tcs.length)))
    ∧ (∀ tc args, tcs = [tc] → json_loads tc.function.arguments = some (Json.obj args) →
      (m.content = none ∨ ∃ s, m.content = some (RawContent.str s)) →
      ∃ out, Message.convert_messages_to_non_native [m] tools = Except.ok out) := by
  constructor
  · intro hne
    unfold Message.convert_messages_to_non_native
    rw [hd]
    dsimp only
    rw [convertLoop, convertOne_assistant _ m false tcs hrole htc]
    unfold convertAssistant
    rw [htc]
    rcases tcs with _ | ⟨a, _ | ⟨b, rest⟩⟩
    · rfl
    · exact absurd rfl hne
    · rfl
  · intro tc args heq hargs hcontent
    subst heq
    unfold Message.convert_messages_to_non_native
    rw [hd]
    dsimp only
    rw [convertLoop, convertOne_assistant _ m false [tc] hrole htc]
    unfold convertAssistant
    rw [htc]
    dsimp only
    have hfmt := to_string_format_of_obj
      ⟨"tool_call", false, tc.function.name, tc.function.arguments, tc.id⟩ args hargs
    rcases hcontent with hnone | ⟨s, hsome⟩
    · rw [hnone]
      dsimp only [assistantTextContent]
      rw [serialize_non_native]
      simp only [stringContentParts, hfmt, Except.map]
      exact ⟨_, rfl⟩
    · rw [hsome]
      dsimp only [assistantTextContent]
      by_cases hs : s = ""
      · rw [if_pos hs]
        rw [serialize_non_native]
        simp only [stringContentParts, hfmt, Except.map]
        exact ⟨_, rfl⟩
      · rw [if_neg hs]
        rw [serialize_non_native]
        simp only [stringContentParts, hfmt, Except.map]
        exact ⟨_, rfl⟩

/-- C4 witness: a two-entry tool_calls list fails with the cardinality error
naming the count two; a one-entry list rewrites successfully. -/
theorem C4_witness :
    Message.convert_messages_to_non_native
        [RawMessage.mk "assistant" none (some [RawToolCall.mk "1" (RawFunction.mk "a" "\x7b\x7d"),
          RawToolCall.mk "2" (RawFunction.mk "b" "\x7b\x7d")]) none none] [] =
      Except.error (PyError.valueError ("Expected exactly one tool call, got "
        ++ toString ([RawToolCall.mk "1" (RawFunction.mk "a" "\x7b\x7d"),
          RawToolCall.mk "2" (RawFunction.mk "b" "\x7b\x7d")] : List RawToolCall).length))
    ∧ ∃ out, Message.convert_messages_to_non_native
        [RawMessage.mk "assistant" none
          (some [RawToolCall.mk "1" (RawFunction.mk "ls" "\x7b\x7d")]) none none] [] =
      Except.ok out := by
  constructor
  · exact (C4_tool_call_cardinality [] ""
      (RawMessage.mk "assistant" none (some [RawToolCall.mk "1" (RawFunction.mk "a" "\x7b\x7d"),
        RawToolCall.mk "2" (RawFunction.mk "b" "\x7b\x7d")]) none none)
      [RawToolCall.mk "1" (RawFunction.mk "a" "\x7b\x7d"),
        RawToolCall.mk "2" (RawFunction.mk "b" "\x7b\x7d")] rfl rfl rfl).1 (by decide)
  · exact (C4_tool_call_cardinality [] ""
      (RawMessage.mk "assistant" none
        (some [RawToolCall.mk "1" (RawFunction.mk "ls" "\x7b\x7d")]) none none)
      [RawToolCall.mk "1" (RawFunction.mk "ls" "\x7b\x7d")] rfl rfl rfl).2
      (RawToolCall.mk "1" (RawFunction.mk "ls" "\x7b\x7d")) [] rfl rfl (Or.inl rfl)

/-- C5: in any rewritten message list, a user message with no earlier user
message gets the in-context learning example prefix/suffix wrapper (shown for
string content), while every later user message is passed through unchanged —
in particular, when its content string does not contain the example markers,
the corresponding output entry does not contain them either. -/
theorem C5_first_user_injection_once (tools : List Tool) (msgs : List RawMessage)
    (out : List ConvOut)
    (hok : Message.convert_messages_to_non_native msgs tools = Except.ok out) :
    (∀ i, ∀ hi : i < msgs.length, ∀ s, (msgs.get ⟨i, hi⟩).role = "user" →
      hasUser (msgs.take i) = false →
      (msgs.get ⟨i, hi⟩).content = some (RawContent.str s) →
      out.get? i = some (ConvOut.dumped (Json.obj [("role", Json.str "user"),
        ("content", Json.str (IN_CONTEXT_LEARNING_EXAMPLE_PRE ++ s
          ++ IN_CONTEXT_LEARNING_EXAMPLE_SUF))])))
    ∧ (∀ i, ∀ hi : i < msgs.length, (msgs.get ⟨i, hi⟩).role = "user" →
      hasUser (msgs.take i) = true →
      out.get? i = some (ConvOut.raw (msgs.get ⟨i, hi⟩))
      ∧ ∀ s, (msgs.get ⟨i, hi⟩).content = some (RawContent.str s) →
        strContainsB s IN_CONTEXT_LEARNING_EXAMPLE_PRE = false →
        strContainsB s IN_CONTEXT_LEARNING_EXAMPLE_SUF = false →
        ∃ m2, out.get? i = some (ConvOut.raw m2) ∧ m2.content = some (RawContent.str s) ∧
          strContainsB s IN_CONTEXT_LEARNING_EXAMPLE_PRE = false ∧
          strContainsB s IN_CONTEXT_LEARNING_EXAMPLE_SUF = false) := by
  unfold Message.convert_messages_to_non_native at hok
  cases hd : Message.tools_to_description tools with
  | error e => rw [hd] at hok; simp at hok
  | ok ft =>
    rw [hd] at hok
    dsimp only at hok
    constructor
    · intro i hi s h1 h2 h3
      exact convertLoop_first_user _ msgs false out hok i hi s h1 h3 (by simp [h2])
    · intro i hi h1 h2
      refine ⟨convertLoop_later_user _ msgs false out hok i hi h1 (by simp [h2]), ?_⟩
      intro s hc hp hs
      exact ⟨msgs.get ⟨i, hi⟩,
        convertLoop_later_user _ msgs false out hok i hi h1 (by simp [h2]), hc, hp, hs⟩

/-- C5 witness: a list with two user turns; the first gets wrapped with the
markers, the second is passed through unchanged. -/
theorem C5_witness :
    Message.convert_messages_to_non_native
        [RawMessage.mk "user" (some (RawContent.str "hi")) none none none,
         RawMessage.mk "user" (some (RawContent.str "bye")) none none none] [] =
      Except.ok
        [ConvOut.dumped (Json.obj [("role", Json.str "user"),
          ("content", Json.str (IN_CONTEXT_LEARNING_EXAMPLE_PRE ++ "hi"
            ++ IN_CONTEXT_LEARNING_EXAMPLE_SUF))]),
         ConvOut.raw (RawMessage.mk "user" (some (RawContent.str "bye")) none none none)]
    ∧ [ConvOut.dumped (Json.obj [("role", Json.str "user"),
          ("content", Json.str (IN_CONTEXT_LEARNING_EXAMPLE_PRE ++ "hi"
            ++ IN_CONTEXT_LEARNING_EXAMPLE_SUF))]),
       ConvOut.raw (RawMessage.mk "user" (some (RawContent.str "bye")) none none none)].get? 0 =
      some (ConvOut.dumped (Json.obj [("role", Json.str "user"),
        ("content", Json.str (IN_CONTEXT_LEARNING_EXAMPLE_PRE ++ "hi"
          ++ IN_CONTEXT_LEARNING_EXAMPLE_SUF))]))
    ∧ [ConvOut.dumped (Json.obj [("role", Json.str "user"),
          ("content", Json.str (IN_CONTEXT_LEARNING_EXAMPLE_PRE ++ "hi"
            ++ IN_CONTEXT_LEARNING_EXAMPLE_SUF))]),
       ConvOut.raw (RawMessage.mk "user" (some (RawContent.str "bye")) none none none)].get? 1 =
      some (ConvOut.raw (RawMessage.mk "user" (some (RawContent.str "bye")) none none none)) := by
  refine ⟨rfl, ?_, ?_⟩
  · exact (C5_first_user_injection_once []
      [RawMessage.mk "user" (some (RawContent.str "hi")) none none none,
       RawMessage.mk "user" (some (RawContent.str "bye")) none none none] _ rfl).1
      0 (by decide) "hi" rfl rfl rfl
  · exact ((C5_first_user_injection_once []
      [RawMessage.mk "user" (some (RawContent.str "hi")) none none none,
       RawMessage.mk "user" (some (RawContent.str "bye")) none none none] _ rfl).2
      1 (by decide) rfl rfl).1

/-- C10: rewriting a system message, or a first user message, whose raw
content is a block list serializes the fresh message with every format flag
false, so the output content is the newline-join of the text blocks (plus the
injected suffix or example markers) only — the image blocks' URLs do not
appear anywhere in the output entry. -/
theorem C10_rewriter_drops_images :
    (∀ items : List RawItem,
      Message.convert_messages_to_non_native
        [RawMessage.mk "system" (some (RawContent.list items)) none none none] [] =
        Except.ok [ConvOut.dumped (Json.obj [("role", Json.str "system"),
          ("content", Json.str (joinWith "\n" (textsOf items
            ++ [SYSTEM_PROMPT_SUFFIX_TEMPLATE ""])))])])
    ∧ (∀ items : List RawItem,
      Message.convert_messages_to_non_native
        [RawMessage.mk "user" (some (RawContent.list items)) none none none] [] =
        Except.ok [ConvOut.dumped (Json.obj [("role", Json.str "user"),
          ("content", Json.str (joinWith "\n" (IN_CONTEXT_LEARNING_EXAMPLE_PRE ::
            (textsOf items ++ [IN_CONTEXT_LEARNING_EXAMPLE_SUF]))))])]) := by
  constructor
  · intro items
    unfold Message.convert_messages_to_non_native
    rw [show Message.tools_to_description [] = Except.ok "" from rfl]
    dsimp only
    rw [convertLoop,
      convertOne_system (SYSTEM_PROMPT_SUFFIX_TEMPLATE "")
        (RawMessage.mk "system" (some (RawContent.list items)) none none none) false rfl]
    rw [show (RawMessage.mk "system" (some (RawContent.list items))
        none none none).content.getD (RawContent.str "") = RawContent.list items from rfl]
    rw [convertSystem_list]
    rfl
  · intro items
    unfold Message.convert_messages_to_non_native
    rw [show Message.tools_to_description [] = Except.ok "" from rfl]
    dsimp only
    rw [convertLoop,
      convertOne_user_first (SYSTEM_PROMPT_SUFFIX_TEMPLATE "")
        (RawMessage.mk "user" (some (RawContent.list items)) none none none) rfl]
    rw [show (RawMessage.mk "user" (some (RawContent.list items))
        none none none).content.getD (RawContent.str "") = RawContent.list items from rfl]
    rw [convertFirstUser_list]
    rfl
